import Mathlib

/-!
Verification of the cart/order reconciliation core of the e-shop-central
storefront: the cart merger (add-to-cart handlers), the cart quantity
adjuster, the order finalizer (checkout submit handler), the aggregate
rating calculator, and the wishlist/review mutation handlers.

Prices and ratings are JavaScript numbers holding currency/score values;
they are modelled as rationals.  Quantities and stock counts are modelled
as integers.  The external record store is modelled as an explicit `Store`
value, and every side-effecting call the handlers issue is recorded as a
`Write` in order, so that partial execution (a failure partway through the
non-atomic write sequence) can be expressed by applying only those writes
that occurred before the failure point.
-/

namespace EShop

/-- A cart line item as stored in the carts table
(`{id, name, price, image, quantity}`). -/
structure CartItem where
  id : String
  name : String
  price : ℚ
  image : Option String
  quantity : ℤ
deriving DecidableEq, Repr

/-- A product as read by the add-to-cart handlers. -/
structure Product where
  id : String
  name : String
  price : ℚ
  image : Option String
  stock : ℤ
deriving DecidableEq, Repr

/-- A review record as consumed by the aggregate rating calculator:
only its rating field is read. -/
structure Review where
  rating : ℚ
deriving DecidableEq, Repr

/-- A row of the products table as read by the checkout stock loop
(only id and stock are used there). -/
structure ProductRec where
  id : String
  stock : ℤ
deriving DecidableEq, Repr

/-- A row of the parallel inventory-tracking table.  Its last-updated
timestamp column is not modelled. -/
structure InventoryRec where
  product_id : String
  stock : ℤ
deriving DecidableEq, Repr

/-- A row of the orders table. -/
structure OrderRec where
  user_id : String
  products : List CartItem
  total : ℚ
  status : String
deriving DecidableEq, Repr

/-- A row of the profiles table (only the loyalty points column is used
by the finalizer). -/
structure ProfileRec where
  id : String
  loyalty_points : ℤ
deriving DecidableEq, Repr

/-- A row of the carts table, keyed by its owning user. -/
structure CartRec where
  user_id : String
  products : List CartItem
deriving DecidableEq, Repr

/-- A row of the wishlists table. -/
structure WishlistRec where
  user_id : String
  product_id : String
deriving DecidableEq, Repr

/-- A row of the reviews table as written by the review handler. -/
structure ReviewRec where
  product_id : String
  user_id : String
  rating : ℤ
  comment : String
deriving DecidableEq, Repr

/-- The external record store: one list per table. -/
structure Store where
  products : List ProductRec
  inventory : List InventoryRec
  orders : List OrderRec
  profiles : List ProfileRec
  carts : List CartRec
  wishlists : List WishlistRec
  reviews : List ReviewRec
deriving DecidableEq, Repr

/-- The user-facing notifications the handlers raise. -/
inductive Toast where
  | authRequired
  | addedToCart
  | addedToWishlist
  | reviewSubmitted
  | orderPlaced (pointsEarned : ℤ)
  | errorToast
deriving DecidableEq, Repr

/-- One side-effecting request issued to the record store. -/
inductive Write where
  | insertOrder (o : OrderRec)
  | updateProfilePoints (userId : String) (points : ℤ)
  | updateProductStock (productId : String) (stock : ℤ)
  | updateInventoryStock (productId : String) (stock : ℤ)
  | clearCart (userId : String)
  | insertCart (userId : String) (products : List CartItem)
  | updateCartProducts (userId : String) (products : List CartItem)
  | insertWishlist (userId : String) (productId : String)
  | insertReview (productId : String) (userId : String) (rating : ℤ) (comment : String)
deriving DecidableEq, Repr

/-- Result of a mutation handler: the store requests it issued, in order,
and the notification it raised. -/
structure HandlerOutcome where
  writes : List Write
  toast : Option Toast
deriving DecidableEq, Repr

/-- Result of the checkout submit handler: the store requests issued in
order, the notification raised, and the navigation performed.  The
handler itself returns no value to its caller. -/
structure SubmitOutcome where
  writes : List Write
  toast : Option Toast
  navigateTo : Option String
deriving DecidableEq, Repr

/-- Outcome reported by the record store for an insert request. -/
inductive InsertResult where
  | ok
  | err (code : String)
deriving DecidableEq, Repr

/-- The fresh cart item appended when the added product is not yet in the
cart (`{id, name, price, image, quantity: 1}`). -/
def newCartItem (product : Product) : CartItem :=
  { id := product.id, name := product.name, price := product.price,
    image := product.image, quantity := 1 }

/-- The cart merger inside the add-to-cart handlers: find the first item
whose id matches the product (the source uses findIndex); if found,
increment that item's quantity by one; otherwise append a fresh item with
quantity one. -/
def mergeItem (product : Product) : List CartItem → List CartItem
  | [] => [newCartItem product]
  | item :: rest =>
      if item.id = product.id then
        { item with quantity := item.quantity + 1 } :: rest
      else
        item :: mergeItem product rest

/-- The cart page's quantity adjuster: requests below one are rejected as
a no-op; otherwise every item whose id matches gets the new quantity. -/
def updateQuantity (cartItems : List CartItem) (itemId : String) (newQuantity : ℤ) :
    List CartItem :=
  if newQuantity < 1 then cartItems
  else cartItems.map fun item =>
    if item.id = itemId then { item with quantity := newQuantity } else item

/-- The aggregate rating calculator: the running-sum reduce of the rating
fields divided by the number of reviews, guarded so the empty sequence
yields zero. -/
def averageRating (reviews : List Review) : ℚ :=
  if 0 < reviews.length then
    (reviews.foldl (fun sum review => sum + review.rating) 0) / (reviews.length : ℚ)
  else 0

/-- Single-row product select by id, as the stock loop performs it. -/
def findProduct (s : Store) (productId : String) : Option ProductRec :=
  s.products.find? fun p => p.id = productId

/-- Single-row inventory select by product id. -/
def findInventory (s : Store) (productId : String) : Option InventoryRec :=
  s.inventory.find? fun r => r.product_id = productId

/-- The loyalty points read during finalization, defaulting to zero when
the profile row is absent (the source's or-zero fallback). -/
def profilePoints (s : Store) (userId : String) : ℤ :=
  match s.profiles.find? (fun p => p.id = userId) with
  | some p => p.loyalty_points
  | none => 0

/-- The checkout total: the running reduce of unit price times quantity
over the cart items. -/
def getTotalPrice (cartItems : List CartItem) : ℚ :=
  cartItems.foldl (fun total item => total + item.price * (item.quantity : ℚ)) 0

/-- Apply one successful write to the store. -/
def applyWrite (s : Store) : Write → Store
  | .insertOrder o => { s with orders := s.orders ++ [o] }
  | .updateProfilePoints uid pts =>
      { s with profiles := s.profiles.map fun p =>
          if p.id = uid then { p with loyalty_points := pts } else p }
  | .updateProductStock pid st =>
      { s with products := s.products.map fun p =>
          if p.id = pid then { p with stock := st } else p }
  | .updateInventoryStock pid st =>
      { s with inventory := s.inventory.map fun r =>
          if r.product_id = pid then { r with stock := st } else r }
  | .clearCart uid =>
      { s with carts := s.carts.map fun c =>
          if c.user_id = uid then { c with products := [] } else c }
  | .insertCart uid prods => { s with carts := s.carts ++ [⟨uid, prods⟩] }
  | .updateCartProducts uid prods =>
      { s with carts := s.carts.map fun c =>
          if c.user_id = uid then { c with products := prods } else c }
  | .insertWishlist uid pid => { s with wishlists := s.wishlists ++ [⟨uid, pid⟩] }
  | .insertReview pid uid rating comment =>
      { s with reviews := s.reviews ++ [⟨pid, uid, rating, comment⟩] }

/-- Apply a list of writes in order. -/
def applyWrites (s : Store) (ws : List Write) : Store :=
  ws.foldl applyWrite s

/-- One iteration of the checkout stock loop: re-select the product by id;
when present, write the clamped stock max(0, stock - quantity) to the
products table and to the inventory table; when absent, issue nothing. -/
def stockWritesFor (s : Store) (item : CartItem) : List Write :=
  match findProduct s item.id with
  | some p =>
      [Write.updateProductStock item.id (max 0 (p.stock - item.quantity)),
       Write.updateInventoryStock item.id (max 0 (p.stock - item.quantity))]
  | none => []

/-- The checkout stock loop over the cart items, threading the store state
so that each iteration's select observes the earlier updates. -/
def stockLoop (s : Store) : List CartItem → List Write
  | [] => []
  | item :: rest =>
      stockWritesFor s item ++ stockLoop (applyWrites s (stockWritesFor s item)) rest

/-- The checkout submit handler: with no user or an empty cart it returns
at once, issuing nothing; otherwise it computes the total and the floored
loyalty points, inserts the pending order, re-reads the profile points and
writes the incremented value, runs the stock loop, clears the cart, raises
the success notification carrying the points earned, and navigates to the
orders view. -/
def handleSubmit : Option String → List CartItem → Store → SubmitOutcome
  | none, _, _ => ⟨[], none, none⟩
  | some uid, cartItems, s =>
      if cartItems = [] then ⟨[], none, none⟩
      else
        let total := getTotalPrice cartItems
        let loyaltyPointsEarned := ⌊total⌋
        let orderWrite := Write.insertOrder ⟨uid, cartItems, total, "pending"⟩
        let s1 := applyWrite s orderWrite
        let pointsWrite :=
          Write.updateProfilePoints uid (profilePoints s1 uid + loyaltyPointsEarned)
        let s2 := applyWrite s1 pointsWrite
        ⟨orderWrite :: pointsWrite :: (stockLoop s2 cartItems ++ [Write.clearCart uid]),
         some (Toast.orderPlaced loyaltyPointsEarned), some "/orders"⟩

/-- The add-to-cart handler: unauthenticated calls abort with the sign-in
prompt and no writes; otherwise the user's cart is selected (created empty
when absent) and the merged item list is written back. -/
def handleAddToCart (user : Option String) (product : Product) (s : Store) :
    HandlerOutcome :=
  match user with
  | none => ⟨[], some Toast.authRequired⟩
  | some uid =>
      match s.carts.find? (fun c => c.user_id = uid) with
      | some cart =>
          ⟨[Write.updateCartProducts uid (mergeItem product cart.products)],
           some Toast.addedToCart⟩
      | none =>
          ⟨[Write.insertCart uid [], Write.updateCartProducts uid (mergeItem product [])],
           some Toast.addedToCart⟩

/-- The add-to-wishlist handler: unauthenticated calls abort with the
sign-in prompt and no writes; otherwise the insert is issued, a
duplicate-key failure (code 23505) is suppressed as success, and any
other failure raises the error notification. -/
def handleAddToWishlist (user : Option String) (productId : String)
    (insertResult : InsertResult) : HandlerOutcome :=
  match user with
  | none => ⟨[], some Toast.authRequired⟩
  | some uid =>
      match insertResult with
      | .ok => ⟨[Write.insertWishlist uid productId], some Toast.addedToWishlist⟩
      | .err code =>
          if code = "23505" then
            ⟨[Write.insertWishlist uid productId], some Toast.addedToWishlist⟩
          else
            ⟨[Write.insertWishlist uid productId], some Toast.errorToast⟩

/-- The review submit handler: unauthenticated calls abort with the
sign-in prompt and no writes; otherwise the review row is inserted with
the trimmed comment. -/
def handleSubmitReview (user : Option String) (productId : String) (rating : ℤ)
    (comment : String) : HandlerOutcome :=
  match user with
  | none => ⟨[], some Toast.authRequired⟩
  | some uid =>
      ⟨[Write.insertReview productId uid rating comment.trim],
       some Toast.reviewSubmitted⟩

/-- What the checkout submit handler's caller can observe without touching
the record store: the notification and the navigation (the handler
returns no value). -/
def callerView (o : SubmitOutcome) : Option Toast × Option String :=
  (o.toast, o.navigateTo)

/-- The order rows a run inserted, recovered from its write trace. -/
def createdOrders (o : SubmitOutcome) : List OrderRec :=
  o.writes.filterMap fun w =>
    match w with
    | Write.insertOrder x => some x
    | _ => none

/-- The product stock values a run wrote, recovered from its write trace. -/
def stockValuesWritten (o : SubmitOutcome) : List (String × ℤ) :=
  o.writes.filterMap fun w =>
    match w with
    | Write.updateProductStock pid st => some (pid, st)
    | _ => none

/-! ### Write application basics -/

theorem applyWrites_nil (s : Store) : applyWrites s [] = s := rfl

theorem applyWrites_cons (s : Store) (w : Write) (ws : List Write) :
    applyWrites s (w :: ws) = applyWrites (applyWrite s w) ws := rfl

theorem applyWrites_append (s : Store) (ws₁ ws₂ : List Write) :
    applyWrites s (ws₁ ++ ws₂) = applyWrites (applyWrites s ws₁) ws₂ :=
  List.foldl_append _ _ _ _

/-- Does a write target the products table? -/
def Write.touchesProducts : Write → Bool
  | .updateProductStock _ _ => true
  | _ => false

/-- Does a write target the inventory table? -/
def Write.touchesInventory : Write → Bool
  | .updateInventoryStock _ _ => true
  | _ => false

/-- Does a write target the orders table? -/
def Write.touchesOrders : Write → Bool
  | .insertOrder _ => true
  | _ => false

/-- Does a write target the carts table? -/
def Write.touchesCarts : Write → Bool
  | .clearCart _ => true
  | .insertCart _ _ => true
  | .updateCartProducts _ _ => true
  | _ => false

theorem products_applyWrite (s : Store) (w : Write) (h : w.touchesProducts = false) :
    (applyWrite s w).products = s.products := by
  cases w <;> first | rfl | simp [Write.touchesProducts] at h

theorem inventory_applyWrite (s : Store) (w : Write) (h : w.touchesInventory = false) :
    (applyWrite s w).inventory = s.inventory := by
  cases w <;> first | rfl | simp [Write.touchesInventory] at h

theorem orders_applyWrite (s : Store) (w : Write) (h : w.touchesOrders = false) :
    (applyWrite s w).orders = s.orders := by
  cases w <;> first | rfl | simp [Write.touchesOrders] at h

theorem carts_applyWrite (s : Store) (w : Write) (h : w.touchesCarts = false) :
    (applyWrite s w).carts = s.carts := by
  cases w <;> first | rfl | simp [Write.touchesCarts] at h

theorem carts_applyWrites {ws : List Write} (s : Store)
    (h : ∀ w ∈ ws, w.touchesCarts = false) :
    (applyWrites s ws).carts = s.carts := by
  induction ws generalizing s with
  | nil => rfl
  | cons w ws ih =>
      rw [applyWrites_cons, ih _ (fun x hx => h x (List.mem_cons_of_mem _ hx)),
        carts_applyWrite _ _ (h w (List.mem_cons_self _ _))]

theorem orders_applyWrites {ws : List Write} (s : Store)
    (h : ∀ w ∈ ws, w.touchesOrders = false) :
    (applyWrites s ws).orders = s.orders := by
  induction ws generalizing s with
  | nil => rfl
  | cons w ws ih =>
      rw [applyWrites_cons, ih _ (fun x hx => h x (List.mem_cons_of_mem _ hx)),
        orders_applyWrite _ _ (h w (List.mem_cons_self _ _))]

/-! ### Tracking single-row selects across writes -/

theorem findProduct_congr {s t : Store} (h : s.products = t.products) (x : String) :
    findProduct s x = findProduct t x := by
  unfold findProduct
  rw [h]

theorem findInventory_congr {s t : Store} (h : s.inventory = t.inventory) (x : String) :
    findInventory s x = findInventory t x := by
  unfold findInventory
  rw [h]

theorem findProduct_updateStock_ne (s : Store) (pid : String) (st : ℤ) (x : String)
    (h : x ≠ pid) :
    findProduct (applyWrite s (Write.updateProductStock pid st)) x = findProduct s x := by
  show ((s.products.map fun p => if p.id = pid then { p with stock := st } else p).find?
      fun p => p.id = x) = s.products.find? fun p => p.id = x
  rw [List.find?_map]
  have hpred : ((fun p : ProductRec => decide (p.id = x)) ∘
      fun p => if p.id = pid then { p with stock := st } else p)
      = fun p : ProductRec => decide (p.id = x) := by
    funext p
    by_cases hp : p.id = pid <;> simp [hp]
  rw [hpred]
  rcases hfind : s.products.find? (fun p => p.id = x) with _ | p
  · rw [hfind]
    rfl
  · have hpx : p.id = x := by simpa using List.find?_some hfind
    have hne : ¬ p.id = pid := by rw [hpx]; exact h
    rw [hfind]
    simp [Option.map, if_neg hne]

theorem findProduct_updateStock_self (s : Store) (pid : String) (st : ℤ) :
    findProduct (applyWrite s (Write.updateProductStock pid st)) pid
      = (findProduct s pid).map fun p => { p with stock := st } := by
  show ((s.products.map fun p => if p.id = pid then { p with stock := st } else p).find?
      fun p => p.id = pid)
    = (s.products.find? fun p => p.id = pid).map fun p => { p with stock := st }
  rw [List.find?_map]
  have hpred : ((fun p : ProductRec => decide (p.id = pid)) ∘
      fun p => if p.id = pid then { p with stock := st } else p)
      = fun p : ProductRec => decide (p.id = pid) := by
    funext p
    by_cases hp : p.id = pid <;> simp [hp]
  rw [hpred]
  rcases hfind : s.products.find? (fun p => p.id = pid) with _ | p
  · rw [hfind]
    rfl
  · have hpx : p.id = pid := by simpa using List.find?_some hfind
    rw [hfind]
    simp [Option.map, if_pos hpx]

theorem findInventory_updateInv_ne (s : Store) (pid : String) (st : ℤ) (x : String)
    (h : x ≠ pid) :
    findInventory (applyWrite s (Write.updateInventoryStock pid st)) x
      = findInventory s x := by
  show ((s.inventory.map fun r => if r.product_id = pid then { r with stock := st } else r).find?
      fun r => r.product_id = x) = s.inventory.find? fun r => r.product_id = x
  rw [List.find?_map]
  have hpred : ((fun r : InventoryRec => decide (r.product_id = x)) ∘
      fun r => if r.product_id = pid then { r with stock := st } else r)
      = fun r : InventoryRec => decide (r.product_id = x) := by
    funext r
    by_cases hr : r.product_id = pid <;> simp [hr]
  rw [hpred]
  rcases hfind : s.inventory.find? (fun r => r.product_id = x) with _ | r
  · rw [hfind]
    rfl
  · have hrx : r.product_id = x := by simpa using List.find?_some hfind
    have hne : ¬ r.product_id = pid := by rw [hrx]; exact h
    rw [hfind]
    simp [Option.map, if_neg hne]

theorem findProduct_applyWrite_of_no_target {s : Store} {w : Write} {x : String}
    (h : ∀ st, w ≠ Write.updateProductStock x st) :
    findProduct (applyWrite s w) x = findProduct s x := by
  cases w with
  | updateProductStock pid st =>
      refine findProduct_updateStock_ne s pid st x fun hx => h st ?_
      rw [hx]
  | insertOrder o => exact findProduct_congr (products_applyWrite s (.insertOrder o) rfl) x
  | updateProfilePoints uid pts => exact findProduct_congr (products_applyWrite s (.updateProfilePoints uid pts) rfl) x
  | updateInventoryStock pid st => exact findProduct_congr (products_applyWrite s (.updateInventoryStock pid st) rfl) x
  | clearCart uid => exact findProduct_congr (products_applyWrite s (.clearCart uid) rfl) x
  | insertCart uid prods => exact findProduct_congr (products_applyWrite s (.insertCart uid prods) rfl) x
  | updateCartProducts uid prods => exact findProduct_congr (products_applyWrite s (.updateCartProducts uid prods) rfl) x
  | insertWishlist uid pid => exact findProduct_congr (products_applyWrite s (.insertWishlist uid pid) rfl) x
  | insertReview pid uid rating comment => exact findProduct_congr (products_applyWrite s (.insertReview pid uid rating comment) rfl) x

theorem findProduct_applyWrites_of_no_target {ws : List Write} (s : Store) (x : String)
    (h : ∀ st, Write.updateProductStock x st ∉ ws) :
    findProduct (applyWrites s ws) x = findProduct s x := by
  induction ws generalizing s with
  | nil => rfl
  | cons w ws ih =>
      rw [applyWrites_cons,
        ih _ (fun st hst => h st (List.mem_cons_of_mem _ hst)),
        findProduct_applyWrite_of_no_target
          (fun st hw => h st (by rw [← hw]; exact List.mem_cons_self _ _))]

theorem findInventory_applyWrite_of_no_target {s : Store} {w : Write} {x : String}
    (h : ∀ st, w ≠ Write.updateInventoryStock x st) :
    findInventory (applyWrite s w) x = findInventory s x := by
  cases w with
  | updateInventoryStock pid st =>
      refine findInventory_updateInv_ne s pid st x fun hx => h st ?_
      rw [hx]
  | insertOrder o => exact findInventory_congr (inventory_applyWrite s (.insertOrder o) rfl) x
  | updateProfilePoints uid pts => exact findInventory_congr (inventory_applyWrite s (.updateProfilePoints uid pts) rfl) x
  | updateProductStock pid st => exact findInventory_congr (inventory_applyWrite s (.updateProductStock pid st) rfl) x
  | clearCart uid => exact findInventory_congr (inventory_applyWrite s (.clearCart uid) rfl) x
  | insertCart uid prods => exact findInventory_congr (inventory_applyWrite s (.insertCart uid prods) rfl) x
  | updateCartProducts uid prods => exact findInventory_congr (inventory_applyWrite s (.updateCartProducts uid prods) rfl) x
  | insertWishlist uid pid => exact findInventory_congr (inventory_applyWrite s (.insertWishlist uid pid) rfl) x
  | insertReview pid uid rating comment => exact findInventory_congr (inventory_applyWrite s (.insertReview pid uid rating comment) rfl) x

theorem findInventory_applyWrites_of_no_target {ws : List Write} (s : Store) (x : String)
    (h : ∀ st, Write.updateInventoryStock x st ∉ ws) :
    findInventory (applyWrites s ws) x = findInventory s x := by
  induction ws generalizing s with
  | nil => rfl
  | cons w ws ih =>
      rw [applyWrites_cons,
        ih _ (fun st hst => h st (List.mem_cons_of_mem _ hst)),
        findInventory_applyWrite_of_no_target
          (fun st hw => h st (by rw [← hw]; exact List.mem_cons_self _ _))]

/-! ### Stock loop lemmas -/

theorem stockWritesFor_found {s : Store} {item : CartItem} {p : ProductRec}
    (h : findProduct s item.id = some p) :
    stockWritesFor s item
      = [Write.updateProductStock item.id (max 0 (p.stock - item.quantity)),
         Write.updateInventoryStock item.id (max 0 (p.stock - item.quantity))] := by
  unfold stockWritesFor
  rw [h]

theorem stockWritesFor_missing {s : Store} {item : CartItem}
    (h : findProduct s item.id = none) :
    stockWritesFor s item = [] := by
  unfold stockWritesFor
  rw [h]

theorem findProduct_stockWritesFor_ne (s : Store) (item : CartItem) (x : String)
    (hx : x ≠ item.id) :
    findProduct (applyWrites s (stockWritesFor s item)) x = findProduct s x := by
  rcases hfp : findProduct s item.id with _ | p
  · rw [stockWritesFor_missing hfp]
    rfl
  · rw [stockWritesFor_found hfp, applyWrites_cons, applyWrites_cons, applyWrites_nil]
    rw [findProduct_congr
      (products_applyWrite _ (.updateInventoryStock item.id (max 0 (p.stock - item.quantity))) rfl) x]
    exact findProduct_updateStock_ne _ _ _ _ hx

theorem findProduct_stockWritesFor_self {s : Store} {item : CartItem} {p : ProductRec}
    (h : findProduct s item.id = some p) :
    findProduct (applyWrites s (stockWritesFor s item)) item.id
      = some { p with stock := max 0 (p.stock - item.quantity) } := by
  rw [stockWritesFor_found h, applyWrites_cons, applyWrites_cons, applyWrites_nil]
  rw [findProduct_congr
    (products_applyWrite _ (.updateInventoryStock item.id (max 0 (p.stock - item.quantity))) rfl)
    item.id]
  rw [findProduct_updateStock_self, h]
  rfl

theorem stockLoop_frame (items : List CartItem) :
    ∀ (s : Store) (x : String), (∀ j ∈ items, j.id ≠ x) →
      findProduct (applyWrites s (stockLoop s items)) x = findProduct s x := by
  induction items with
  | nil => intro s x _; rfl
  | cons j rest ih =>
      intro s x h
      rw [stockLoop, applyWrites_append]
      rw [ih _ x (fun r hr => h r (List.mem_cons_of_mem _ hr))]
      exact findProduct_stockWritesFor_ne s j x
        (fun hx => h j (List.mem_cons_self _ _) hx.symm)

theorem stockLoop_find_spec (items : List CartItem) :
    ∀ (s : Store) (item : CartItem) (p : ProductRec),
      (items.map CartItem.id).Nodup → item ∈ items → findProduct s item.id = some p →
      findProduct (applyWrites s (stockLoop s items)) item.id
        = some { p with stock := max 0 (p.stock - item.quantity) } := by
  induction items with
  | nil => intro _ _ _ _ hmem; exact absurd hmem (List.not_mem_nil _)
  | cons j rest ih =>
      intro s item p hnd hmem hfind
      have hnd' : (rest.map CartItem.id).Nodup := (List.nodup_cons.mp hnd).2
      have hjid : j.id ∉ rest.map CartItem.id := (List.nodup_cons.mp hnd).1
      rw [stockLoop, applyWrites_append]
      rcases List.mem_cons.mp hmem with rfl | hrest
      · have hafter := findProduct_stockWritesFor_self hfind
        rw [stockLoop_frame rest _ item.id
          (fun r hr hrid => hjid (hrid ▸ List.mem_map_of_mem CartItem.id hr))]
        exact hafter
      · have hne : item.id ≠ j.id := fun he =>
          hjid (he ▸ List.mem_map_of_mem CartItem.id hrest)
        have hfind' :
            findProduct (applyWrites s (stockWritesFor s j)) item.id = some p := by
          rw [findProduct_stockWritesFor_ne s j item.id hne]
          exact hfind
        exact ih _ item p hnd' hrest hfind'

theorem stockLoop_writes_shape (items : List CartItem) :
    ∀ (s : Store), ∀ w ∈ stockLoop s items,
      ∃ it ∈ items, ∃ st, w = Write.updateProductStock it.id st
        ∨ w = Write.updateInventoryStock it.id st := by
  induction items with
  | nil => intro s w hw; exact absurd hw (List.not_mem_nil _)
  | cons j rest ih =>
      intro s w hw
      rw [stockLoop] at hw
      rcases List.mem_append.mp hw with hw1 | hw2
      · rcases hfp : findProduct s j.id with _ | p
        · rw [stockWritesFor_missing hfp] at hw1
          exact absurd hw1 (List.not_mem_nil _)
        · rw [stockWritesFor_found hfp] at hw1
          rcases hw1 with _ | ⟨_, hw1⟩
          · exact ⟨j, List.mem_cons_self _ _,
              max 0 (p.stock - j.quantity), Or.inl rfl⟩
          · rcases hw1 with _ | ⟨_, hw1⟩
            · exact ⟨j, List.mem_cons_self _ _,
                max 0 (p.stock - j.quantity), Or.inr rfl⟩
            · exact absurd hw1 (List.not_mem_nil _)
      · obtain ⟨it, hit, st, ho⟩ := ih _ w hw2
        exact ⟨it, List.mem_cons_of_mem _ hit, st, ho⟩

theorem stockLoop_missing_no_target (items : List CartItem) :
    ∀ (s : Store) (x : String), findProduct s x = none →
      ∀ st, Write.updateProductStock x st ∉ stockLoop s items
        ∧ Write.updateInventoryStock x st ∉ stockLoop s items := by
  induction items with
  | nil => intro s x _ st; exact ⟨List.not_mem_nil _, List.not_mem_nil _⟩
  | cons j rest ih =>
      intro s x hmiss st
      rw [stockLoop]
      have hmiss' :
          findProduct (applyWrites s (stockWritesFor s j)) x = none := by
        by_cases hjx : x = j.id
        · subst hjx
          rw [stockWritesFor_missing hmiss]
          exact hmiss
        · rw [findProduct_stockWritesFor_ne s j x hjx]
          exact hmiss
      have hrest := ih _ x hmiss' st
      have hhead : Write.updateProductStock x st ∉ stockWritesFor s j
          ∧ Write.updateInventoryStock x st ∉ stockWritesFor s j := by
        rcases hfp : findProduct s j.id with _ | p
        · rw [stockWritesFor_missing hfp]
          exact ⟨List.not_mem_nil _, List.not_mem_nil _⟩
        · have hjx : x ≠ j.id := by
            intro he
            rw [he, hfp] at hmiss
            exact Option.noConfusion hmiss
          rw [stockWritesFor_found hfp]
          constructor
          · intro hmem
            rcases hmem with _ | ⟨_, hmem⟩
            · exact hjx rfl
            · rcases hmem with _ | ⟨_, hmem⟩
              · exact absurd hmem (List.not_mem_nil _)
          · intro hmem
            rcases hmem with _ | ⟨_, hmem⟩
            · rcases hmem with _ | ⟨_, hmem⟩
              · exact hjx rfl
              · exact absurd hmem (List.not_mem_nil _)
      constructor
      · intro hmem
        rcases List.mem_append.mp hmem with h1 | h2
        · exact hhead.1 h1
        · exact hrest.1 h2
      · intro hmem
        rcases List.mem_append.mp hmem with h1 | h2
        · exact hhead.2 h1
        · exact hrest.2 h2

/-! ### Unfolding the checkout submit handler -/

theorem handleSubmit_some (uid : String) (items : List CartItem) (s : Store)
    (hne : items ≠ []) :
    handleSubmit (some uid) items s =
      ⟨Write.insertOrder ⟨uid, items, getTotalPrice items, "pending"⟩ ::
        Write.updateProfilePoints uid (profilePoints s uid + ⌊getTotalPrice items⌋) ::
        (stockLoop
          (applyWrite
            (applyWrite s (Write.insertOrder ⟨uid, items, getTotalPrice items, "pending"⟩))
            (Write.updateProfilePoints uid (profilePoints s uid + ⌊getTotalPrice items⌋)))
          items ++ [Write.clearCart uid]),
       some (Toast.orderPlaced ⌊getTotalPrice items⌋), some "/orders"⟩ := by
  simp only [handleSubmit, if_neg hne]
  rfl

/-! ### Reduce-to-sum lemmas -/

theorem getTotalPrice_eq_sum (items : List CartItem) :
    getTotalPrice items = (items.map fun i => i.price * (i.quantity : ℚ)).sum := by
  have key : ∀ (l : List CartItem) (a : ℚ),
      l.foldl (fun total item => total + item.price * (item.quantity : ℚ)) a
        = a + (l.map fun i => i.price * (i.quantity : ℚ)).sum := by
    intro l
    induction l with
    | nil => intro a; simp
    | cons i rest ih =>
        intro a
        rw [List.foldl_cons, ih, List.map_cons, List.sum_cons]
        ring
  simpa using key items 0

theorem ratingReduce_eq_sum (reviews : List Review) :
    reviews.foldl (fun sum review => sum + review.rating) 0
      = (reviews.map Review.rating).sum := by
  have key : ∀ (l : List Review) (a : ℚ),
      l.foldl (fun sum review => sum + review.rating) a
        = a + (l.map Review.rating).sum := by
    intro l
    induction l with
    | nil => intro a; simp
    | cons r rest ih =>
        intro a
        rw [List.foldl_cons, ih, List.map_cons, List.sum_cons]
        ring
  simpa using key reviews 0

/-! ### Projection helper lemmas -/

theorem applyWrite_insertOrder_products (s : Store) (o : OrderRec) :
    (applyWrite s (Write.insertOrder o)).products = s.products := rfl

theorem applyWrite_updateProfilePoints_products (s : Store) (uid : String) (pts : ℤ) :
    (applyWrite s (Write.updateProfilePoints uid pts)).products = s.products := rfl

theorem applyWrite_clearCart_products (s : Store) (uid : String) :
    (applyWrite s (Write.clearCart uid)).products = s.products := rfl

/-! ### Claim theorems -/

/-- Claim C3: merging a product into a cart item list increments exactly the
first item with a matching product id, leaving every other item unchanged
and order preserved; when no item matches, a fresh item with quantity one
is appended at the end. -/
theorem claim_C3_mergeItem :
    (∀ (items : List CartItem) (product : Product),
        (∀ it ∈ items, it.id ≠ product.id) →
        mergeItem product items = items ++ [newCartItem product])
    ∧ (∀ (pre post : List CartItem) (item : CartItem) (product : Product),
        item.id = product.id → (∀ j ∈ pre, j.id ≠ product.id) →
        mergeItem product (pre ++ item :: post)
          = pre ++ { item with quantity := item.quantity + 1 } :: post) := by
  constructor
  · intro items product h
    induction items with
    | nil => rfl
    | cons it rest ih =>
        rw [mergeItem, if_neg (h it (List.mem_cons_self _ _)),
          ih (fun j hj => h j (List.mem_cons_of_mem _ hj)), List.cons_append]
  · intro pre post item product hid hpre
    induction pre with
    | nil =>
        rw [List.nil_append, mergeItem, if_pos hid, List.nil_append]
    | cons j rest ih =>
        rw [List.cons_append, mergeItem, if_neg (hpre j (List.mem_cons_self _ _)),
          ih (fun x hx => hpre x (List.mem_cons_of_mem _ hx)), List.cons_append]

/-- Witness for C3 at a concrete cart and product. -/
theorem claim_C3_witness :
    ((∀ it ∈ ([⟨"b", "B", 2, none, 1⟩] : List CartItem), it.id ≠ "a")
      ∧ mergeItem ⟨"a", "A", 5, none, 10⟩ [⟨"b", "B", 2, none, 1⟩]
          = [⟨"b", "B", 2, none, 1⟩] ++ [newCartItem ⟨"a", "A", 5, none, 10⟩])
    ∧ mergeItem ⟨"a", "A", 5, none, 10⟩
          ([⟨"b", "B", 2, none, 1⟩] ++ ⟨"a", "A", 5, none, 2⟩ :: [])
        = [⟨"b", "B", 2, none, 1⟩]
            ++ { (⟨"a", "A", 5, none, 2⟩ : CartItem) with quantity := 2 + 1 } :: [] :=
  ⟨⟨by decide,
    claim_C3_mergeItem.1 [⟨"b", "B", 2, none, 1⟩] ⟨"a", "A", 5, none, 10⟩ (by decide)⟩,
   claim_C3_mergeItem.2 [⟨"b", "B", 2, none, 1⟩] [] ⟨"a", "A", 5, none, 2⟩
     ⟨"a", "A", 5, none, 10⟩ rfl (by decide)⟩

/-- Claim C5: averageRating is total, returns 0 on the empty sequence, and on
every sequence equals the arithmetic mean of the rating fields (its value
times the length recovers the sum of ratings when the sequence is
non-empty). -/
theorem claim_C5_averageRating :
    averageRating [] = 0
    ∧ (∀ reviews : List Review,
        averageRating reviews
          = (reviews.map Review.rating).sum / (reviews.length : ℚ))
    ∧ (∀ reviews : List Review, reviews ≠ [] →
        averageRating reviews * (reviews.length : ℚ)
          = (reviews.map Review.rating).sum) := by
  have hmean : ∀ reviews : List Review,
      averageRating reviews
        = (reviews.map Review.rating).sum / (reviews.length : ℚ) := by
    intro reviews
    rcases reviews with _ | ⟨r, rest⟩
    · simp [averageRating]
    · unfold averageRating
      rw [if_pos (by simp), ratingReduce_eq_sum]
  refine ⟨rfl, hmean, ?_⟩
  intro reviews hne
  have hlen : (reviews.length : ℚ) ≠ 0 := by
    have h0 : reviews.length ≠ 0 := by simpa [List.length_eq_zero] using hne
    exact_mod_cast h0
  rw [hmean reviews, div_mul_cancel₀ _ hlen]

/-- Witness for C5 on the three-review example, whose mean is exactly 4. -/
theorem claim_C5_witness :
    ([⟨4⟩, ⟨5⟩, ⟨3⟩] : List Review) ≠ []
    ∧ averageRating [⟨4⟩, ⟨5⟩, ⟨3⟩] * (([⟨4⟩, ⟨5⟩, ⟨3⟩] : List Review).length : ℚ)
        = (([⟨4⟩, ⟨5⟩, ⟨3⟩] : List Review).map Review.rating).sum
    ∧ averageRating [⟨4⟩, ⟨5⟩, ⟨3⟩] = 4 := by
  refine ⟨by decide, claim_C5_averageRating.2.2 _ (by decide), ?_⟩
  rw [claim_C5_averageRating.2.1]
  norm_num [List.map_cons, List.map_nil, List.sum_cons, List.sum_nil]

/-- Claim C7: setQuantity with a requested quantity below one is rejected as
a no-op; with a quantity of at least one it rewrites exactly the matching
items' quantity, preserving every other item, the order and the length. -/
theorem claim_C7_updateQuantity (items : List CartItem) (itemId : String) (q : ℤ) :
    (q < 1 → updateQuantity items itemId q = items)
    ∧ (1 ≤ q → ∀ i : ℕ,
        (updateQuantity items itemId q)[i]?
          = (items[i]?).map fun it =>
              if it.id = itemId then { it with quantity := q } else it) := by
  constructor
  · intro h
    unfold updateQuantity
    rw [if_pos h]
  · intro h i
    unfold updateQuantity
    rw [if_neg (not_lt.mpr h), List.getElem?_map]

/-- Witness for C7: quantity zero leaves the cart untouched, quantity four
rewrites the matching item. -/
theorem claim_C7_witness :
    ((0 : ℤ) < 1
      ∧ updateQuantity [⟨"a", "A", 5, none, 2⟩] "a" 0 = [⟨"a", "A", 5, none, 2⟩])
    ∧ ((1 : ℤ) ≤ 4
      ∧ (updateQuantity [⟨"a", "A", 5, none, 2⟩] "a" 4)[0]?
          = (([⟨"a", "A", 5, none, 2⟩] : List CartItem)[0]?).map fun it =>
              if it.id = "a" then { it with quantity := 4 } else it)
    ∧ updateQuantity [⟨"a", "A", 5, none, 2⟩] "a" 4 = [⟨"a", "A", 5, none, 4⟩] :=
  ⟨⟨by decide, (claim_C7_updateQuantity _ _ _).1 (by decide)⟩,
   ⟨by decide, (claim_C7_updateQuantity _ _ _).2 (by decide) 0⟩,
   by decide⟩

/-- Claim C9: a duplicate-key failure (code 23505) on the wishlist insert is
suppressed and reported as success, a clean insert is reported as success,
and every other insert failure is surfaced as an error. -/
theorem claim_C9_wishlist_duplicate (uid productId : String) :
    handleAddToWishlist (some uid) productId (InsertResult.err "23505")
      = ⟨[Write.insertWishlist uid productId], some Toast.addedToWishlist⟩
    ∧ handleAddToWishlist (some uid) productId InsertResult.ok
      = ⟨[Write.insertWishlist uid productId], some Toast.addedToWishlist⟩
    ∧ (∀ code, code ≠ "23505" →
        handleAddToWishlist (some uid) productId (InsertResult.err code)
          = ⟨[Write.insertWishlist uid productId], some Toast.errorToast⟩) := by
  refine ⟨by simp [handleAddToWishlist], rfl, ?_⟩
  intro code hc
  simp [handleAddToWishlist, if_neg hc]

/-- Witness for C9 at concrete error codes. -/
theorem claim_C9_witness :
    "999" ≠ "23505"
    ∧ handleAddToWishlist (some "u") "p" (InsertResult.err "999")
        = ⟨[Write.insertWishlist "u" "p"], some Toast.errorToast⟩
    ∧ handleAddToWishlist (some "u") "p" (InsertResult.err "23505")
        = ⟨[Write.insertWishlist "u" "p"], some Toast.addedToWishlist⟩ :=
  ⟨by decide, (claim_C9_wishlist_duplicate "u" "p").2.2 "999" (by decide),
   (claim_C9_wishlist_duplicate "u" "p").1⟩

/-- Claim C8, counterexample to the claim as stated: the checkout submit
handler invoked with no authenticated user aborts with no writes but also
raises no notification at all — in particular no prompt to sign in. -/
theorem claim_C8_counterexample :
    (handleSubmit none [⟨"a", "A", 5, none, 1⟩]
        ⟨[], [], [], [], [], [], []⟩).writes = []
    ∧ (handleSubmit none [⟨"a", "A", 5, none, 1⟩]
        ⟨[], [], [], [], [], [], []⟩).toast = none :=
  ⟨rfl, rfl⟩

/-- Claim C8 as amended: every cart/wishlist/order/review mutation invoked
with no authenticated user aborts before issuing any write to the record
store; the add-to-cart, add-to-wishlist and review handlers prompt the
user to sign in, while checkout submission aborts silently. -/
theorem claim_C8_unauthenticated_aborts :
    ∀ (product : Product) (s : Store) (productId : String) (res : InsertResult)
      (rating : ℤ) (comment : String) (items : List CartItem) (s2 : Store),
      handleAddToCart none product s = ⟨[], some Toast.authRequired⟩
      ∧ handleAddToWishlist none productId res = ⟨[], some Toast.authRequired⟩
      ∧ handleSubmitReview none productId rating comment
          = ⟨[], some Toast.authRequired⟩
      ∧ handleSubmit none items s2 = ⟨[], none, none⟩ := by
  intro product s productId res rating comment items s2
  exact ⟨rfl, rfl, rfl, rfl⟩

/-- After a full successful finalization run, the stock of a cart item's
product has been written as max(0, previous stock - quantity). -/
theorem handleSubmit_findProduct (uid : String) (items : List CartItem) (s : Store)
    (hnd : (items.map CartItem.id).Nodup) (hne : items ≠ [])
    (item : CartItem) (p : ProductRec) (hmem : item ∈ items)
    (hfind : findProduct s item.id = some p) :
    findProduct (applyWrites s (handleSubmit (some uid) items s).writes) item.id
      = some { p with stock := max 0 (p.stock - item.quantity) } := by
  rw [handleSubmit_some uid items s hne]
  show findProduct (applyWrites s (_ :: _ :: (_ ++ [_]))) item.id = _
  rw [applyWrites_cons, applyWrites_cons, applyWrites_append,
    applyWrites_cons, applyWrites_nil,
    findProduct_congr (applyWrite_clearCart_products _ uid) item.id]
  have hprods :
      (applyWrite
          (applyWrite s (Write.insertOrder ⟨uid, items, getTotalPrice items, "pending"⟩))
          (Write.updateProfilePoints uid
            (profilePoints s uid + ⌊getTotalPrice items⌋))).products
        = s.products := by
    rw [applyWrite_updateProfilePoints_products, applyWrite_insertOrder_products]
  refine stockLoop_find_spec items _ item p hnd hmem ?_
  rw [findProduct_congr hprods item.id]
  exact hfind

/-- Claim C1: for every finalized order and every cart line item whose
product exists, the written stock is max(0, currentStock - quantity), so
it is exactly 0 (never negative) when the quantity exceeds the stock, and
finalization always succeeds regardless of the stock levels. -/
theorem claim_C1_stock_clamp (uid : String) (items : List CartItem) (s : Store)
    (hnd : (items.map CartItem.id).Nodup) (hne : items ≠ [])
    (item : CartItem) (p : ProductRec) (hmem : item ∈ items)
    (hfind : findProduct s item.id = some p) :
    findProduct (applyWrites s (handleSubmit (some uid) items s).writes) item.id
      = some { p with stock := max 0 (p.stock - item.quantity) }
    ∧ (p.stock < item.quantity →
        findProduct (applyWrites s (handleSubmit (some uid) items s).writes) item.id
          = some { p with stock := 0 })
    ∧ 0 ≤ max 0 (p.stock - item.quantity)
    ∧ (handleSubmit (some uid) items s).navigateTo = some "/orders"
    ∧ (handleSubmit (some uid) items s).toast
        = some (Toast.orderPlaced ⌊getTotalPrice items⌋) := by
  refine ⟨handleSubmit_findProduct uid items s hnd hne item p hmem hfind,
    ?_, le_max_left _ _, ?_, ?_⟩
  · intro hlt
    have h := handleSubmit_findProduct uid items s hnd hne item p hmem hfind
    rw [h]
    have hmax : max 0 (p.stock - item.quantity) = 0 := by
      rw [max_eq_left (by omega)]
    rw [hmax]
  · rw [handleSubmit_some uid items s hne]
  · rw [handleSubmit_some uid items s hne]

/-- Witness for C1: stock 3, quantity 5 yields stock exactly 0 and a
successful order. -/
theorem claim_C1_witness :
    (([⟨"A", "Alpha", 10, none, 5⟩] : List CartItem).map CartItem.id).Nodup
    ∧ ([⟨"A", "Alpha", 10, none, 5⟩] : List CartItem) ≠ []
    ∧ (⟨"A", "Alpha", 10, none, 5⟩ : CartItem) ∈ [⟨"A", "Alpha", 10, none, 5⟩]
    ∧ findProduct ⟨[⟨"A", 3⟩], [⟨"A", 3⟩], [], [⟨"u", 0⟩],
        [⟨"u", [⟨"A", "Alpha", 10, none, 5⟩]⟩], [], []⟩ "A" = some ⟨"A", 3⟩
    ∧ (3 : ℤ) < 5
    ∧ findProduct
        (applyWrites
          ⟨[⟨"A", 3⟩], [⟨"A", 3⟩], [], [⟨"u", 0⟩],
            [⟨"u", [⟨"A", "Alpha", 10, none, 5⟩]⟩], [], []⟩
          (handleSubmit (some "u") [⟨"A", "Alpha", 10, none, 5⟩]
            ⟨[⟨"A", 3⟩], [⟨"A", 3⟩], [], [⟨"u", 0⟩],
              [⟨"u", [⟨"A", "Alpha", 10, none, 5⟩]⟩], [], []⟩).writes)
        "A" = some ⟨"A", 0⟩ := by
  refine ⟨by decide, by decide, by decide, by decide, by decide, ?_⟩
  exact (claim_C1_stock_clamp "u" [⟨"A", "Alpha", 10, none, 5⟩]
    ⟨[⟨"A", 3⟩], [⟨"A", 3⟩], [], [⟨"u", 0⟩],
      [⟨"u", [⟨"A", "Alpha", 10, none, 5⟩]⟩], [], []⟩
    (by decide) (by decide) ⟨"A", "Alpha", 10, none, 5⟩ ⟨"A", 3⟩
    (by decide) (by decide)).2.1 (by decide)

/-- Claim C2: for every non-empty cart the points earned equal the floor of
the sum over items of price times quantity — surfaced in the success
notification and added to the profile's current points in the profile
write. -/
theorem claim_C2_loyalty_floor (uid : String) (items : List CartItem) (s : Store)
    (hne : items ≠ []) :
    (handleSubmit (some uid) items s).toast
      = some (Toast.orderPlaced
          ⌊(items.map fun i => i.price * (i.quantity : ℚ)).sum⌋)
    ∧ Write.updateProfilePoints uid
        (profilePoints s uid
          + ⌊(items.map fun i => i.price * (i.quantity : ℚ)).sum⌋)
        ∈ (handleSubmit (some uid) items s).writes := by
  rw [← getTotalPrice_eq_sum, handleSubmit_some uid items s hne]
  exact ⟨rfl, List.mem_cons_of_mem _ (List.mem_cons_self _ _)⟩

/-- Witness for C2: a cart totalling 19.99 earns exactly 19 points, not 20. -/
theorem claim_C2_witness :
    ([⟨"p", "P", 1999/100, none, 1⟩] : List CartItem) ≠ []
    ∧ (handleSubmit (some "u") [⟨"p", "P", 1999/100, none, 1⟩]
        ⟨[], [], [], [], [], [], []⟩).toast = some (Toast.orderPlaced 19) := by
  refine ⟨by decide, ?_⟩
  rw [(claim_C2_loyalty_floor "u" [⟨"p", "P", 1999/100, none, 1⟩]
    ⟨[], [], [], [], [], [], []⟩ (by decide)).1]
  norm_num [List.map_cons, List.map_nil, List.sum_cons, List.sum_nil]

/-- The write trace of a successful finalization with its last element (the
cart clear) removed: the state reached when a failure strikes just before
the cart is cleared. -/
theorem handleSubmit_writes_dropLast (uid : String) (items : List CartItem) (s : Store)
    (hne : items ≠ []) :
    (handleSubmit (some uid) items s).writes.dropLast
      = Write.insertOrder ⟨uid, items, getTotalPrice items, "pending"⟩ ::
        Write.updateProfilePoints uid (profilePoints s uid + ⌊getTotalPrice items⌋) ::
        stockLoop
          (applyWrite
            (applyWrite s (Write.insertOrder ⟨uid, items, getTotalPrice items, "pending"⟩))
            (Write.updateProfilePoints uid (profilePoints s uid + ⌊getTotalPrice items⌋)))
          items := by
  rw [handleSubmit_some uid items s hne]
  show (Write.insertOrder _ :: Write.updateProfilePoints _ _ :: (_ ++ [_])).dropLast = _
  rw [← List.cons_append, ← List.cons_append, List.dropLast_concat]

/-- Claim C4: one finalization call issues its writes in the fixed order
order-insert, points-update, per-item stock and inventory updates, cart
clear; the writes are independent (not one transaction), so executing any
strict prefix — here all writes up to but excluding the final cart clear —
leaves the earlier writes applied: the order is created and stock written
while the cart is not yet cleared. -/
theorem claim_C4_write_sequence (uid : String) (items : List CartItem) (s : Store)
    (hne : items ≠ []) :
    (handleSubmit (some uid) items s).writes
      = Write.insertOrder ⟨uid, items, getTotalPrice items, "pending"⟩ ::
        Write.updateProfilePoints uid (profilePoints s uid + ⌊getTotalPrice items⌋) ::
        (stockLoop
          (applyWrite
            (applyWrite s (Write.insertOrder ⟨uid, items, getTotalPrice items, "pending"⟩))
            (Write.updateProfilePoints uid (profilePoints s uid + ⌊getTotalPrice items⌋)))
          items ++ [Write.clearCart uid])
    ∧ (∀ w ∈ stockLoop
          (applyWrite
            (applyWrite s (Write.insertOrder ⟨uid, items, getTotalPrice items, "pending"⟩))
            (Write.updateProfilePoints uid (profilePoints s uid + ⌊getTotalPrice items⌋)))
          items,
        ∃ it ∈ items, ∃ st, w = Write.updateProductStock it.id st
          ∨ w = Write.updateInventoryStock it.id st)
    ∧ (applyWrites s (handleSubmit (some uid) items s).writes.dropLast).carts = s.carts
    ∧ (applyWrites s (handleSubmit (some uid) items s).writes.dropLast).orders
        = s.orders ++ [⟨uid, items, getTotalPrice items, "pending"⟩] := by
  refine ⟨by rw [handleSubmit_some uid items s hne], stockLoop_writes_shape items _, ?_, ?_⟩
  · rw [handleSubmit_writes_dropLast uid items s hne]
    refine carts_applyWrites s ?_
    intro w hw
    rcases List.mem_cons.mp hw with rfl | hw
    · rfl
    rcases List.mem_cons.mp hw with rfl | hw
    · rfl
    obtain ⟨it, _, st, h | h⟩ := stockLoop_writes_shape items _ w hw
    · rw [h]
      rfl
    · rw [h]
      rfl
  · rw [handleSubmit_writes_dropLast uid items s hne, applyWrites_cons]
    rw [orders_applyWrites _ ?hw]
    · rfl
    case hw =>
      intro w hw
      rcases List.mem_cons.mp hw with rfl | hw
      · rfl
      obtain ⟨it, _, st, h | h⟩ := stockLoop_writes_shape items _ w hw
      · rw [h]
        rfl
      · rw [h]
        rfl

/-- Witness for C4 at a concrete store: after all writes but the cart clear,
the order exists while the cart still holds its item. -/
theorem claim_C4_witness :
    ([⟨"A", "Alpha", 10, none, 1⟩] : List CartItem) ≠ []
    ∧ (applyWrites
        ⟨[⟨"A", 5⟩], [], [], [], [⟨"u", [⟨"A", "Alpha", 10, none, 1⟩]⟩], [], []⟩
        (handleSubmit (some "u") [⟨"A", "Alpha", 10, none, 1⟩]
          ⟨[⟨"A", 5⟩], [], [], [], [⟨"u", [⟨"A", "Alpha", 10, none, 1⟩]⟩], [],
            []⟩).writes.dropLast).carts
      = [⟨"u", [⟨"A", "Alpha", 10, none, 1⟩]⟩]
    ∧ (applyWrites
        ⟨[⟨"A", 5⟩], [], [], [], [⟨"u", [⟨"A", "Alpha", 10, none, 1⟩]⟩], [], []⟩
        (handleSubmit (some "u") [⟨"A", "Alpha", 10, none, 1⟩]
          ⟨[⟨"A", 5⟩], [], [], [], [⟨"u", [⟨"A", "Alpha", 10, none, 1⟩]⟩], [],
            []⟩).writes.dropLast).orders
      = [] ++ [⟨"u", [⟨"A", "Alpha", 10, none, 1⟩],
          getTotalPrice [⟨"A", "Alpha", 10, none, 1⟩], "pending"⟩] :=
  ⟨by decide,
   (claim_C4_write_sequence "u" [⟨"A", "Alpha", 10, none, 1⟩]
     ⟨[⟨"A", 5⟩], [], [], [], [⟨"u", [⟨"A", "Alpha", 10, none, 1⟩]⟩], [], []⟩
     (by decide)).2.2.1,
   (claim_C4_write_sequence "u" [⟨"A", "Alpha", 10, none, 1⟩]
     ⟨[⟨"A", 5⟩], [], [], [], [⟨"u", [⟨"A", "Alpha", 10, none, 1⟩]⟩], [], []⟩
     (by decide)).2.2.2⟩

/-- Claim C10: a line item whose product row no longer exists is silently
skipped by the stock loop — no stock or inventory write targets it and its
(absent) product row and its inventory row are untouched — while the order
is still created with the item in its snapshot and the full floored total,
item included, is still awarded as points. -/
theorem claim_C10_missing_product (uid : String) (items : List CartItem) (s : Store)
    (hne : items ≠ []) (item : CartItem) (hmem : item ∈ items)
    (hmiss : findProduct s item.id = none) :
    (∀ st,
      Write.updateProductStock item.id st ∉ (handleSubmit (some uid) items s).writes
      ∧ Write.updateInventoryStock item.id st
          ∉ (handleSubmit (some uid) items s).writes)
    ∧ findProduct (applyWrites s (handleSubmit (some uid) items s).writes) item.id
        = none
    ∧ findInventory (applyWrites s (handleSubmit (some uid) items s).writes) item.id
        = findInventory s item.id
    ∧ Write.insertOrder ⟨uid, items, getTotalPrice items, "pending"⟩
        ∈ (handleSubmit (some uid) items s).writes
    ∧ (handleSubmit (some uid) items s).toast
        = some (Toast.orderPlaced ⌊getTotalPrice items⌋) := by
  have hprods :
      (applyWrite
          (applyWrite s (Write.insertOrder ⟨uid, items, getTotalPrice items, "pending"⟩))
          (Write.updateProfilePoints uid
            (profilePoints s uid + ⌊getTotalPrice items⌋))).products
        = s.products := by
    rw [applyWrite_updateProfilePoints_products, applyWrite_insertOrder_products]
  have hmiss2 : findProduct
      (applyWrite
        (applyWrite s (Write.insertOrder ⟨uid, items, getTotalPrice items, "pending"⟩))
        (Write.updateProfilePoints uid (profilePoints s uid + ⌊getTotalPrice items⌋)))
      item.id = none := by
    rw [findProduct_congr hprods item.id]
    exact hmiss
  have hnot : ∀ st,
      Write.updateProductStock item.id st ∉ (handleSubmit (some uid) items s).writes
      ∧ Write.updateInventoryStock item.id st
          ∉ (handleSubmit (some uid) items s).writes := by
    intro st
    rw [handleSubmit_some uid items s hne]
    have hloop := stockLoop_missing_no_target items _ item.id hmiss2 st
    constructor
    · intro hw
      simp only [List.mem_cons, List.mem_append, List.mem_singleton] at hw
      rcases hw with h | h | h | h | h
      · exact Write.noConfusion h
      · exact Write.noConfusion h
      · exact hloop.1 h
      · exact Write.noConfusion h
      · exact absurd h (List.not_mem_nil _)
    · intro hw
      simp only [List.mem_cons, List.mem_append, List.mem_singleton] at hw
      rcases hw with h | h | h | h | h
      · exact Write.noConfusion h
      · exact Write.noConfusion h
      · exact hloop.2 h
      · exact Write.noConfusion h
      · exact absurd h (List.not_mem_nil _)
  refine ⟨hnot, ?_, ?_, ?_, ?_⟩
  · rw [findProduct_applyWrites_of_no_target s item.id (fun st => (hnot st).1)]
    exact hmiss
  · exact findInventory_applyWrites_of_no_target s item.id (fun st => (hnot st).2)
  · rw [handleSubmit_some uid items s hne]
    exact List.mem_cons_self _ _
  · rw [handleSubmit_some uid items s hne]

/-- Witness for C10: a cart item whose product row is gone, while its
inventory row survives untouched. -/
theorem claim_C10_witness :
    ([⟨"X", "Xp", 2, none, 3⟩] : List CartItem) ≠ []
    ∧ (⟨"X", "Xp", 2, none, 3⟩ : CartItem) ∈ [⟨"X", "Xp", 2, none, 3⟩]
    ∧ findProduct ⟨[], [⟨"X", 9⟩], [], [], [], [], []⟩ "X" = none
    ∧ findProduct
        (applyWrites ⟨[], [⟨"X", 9⟩], [], [], [], [], []⟩
          (handleSubmit (some "u") [⟨"X", "Xp", 2, none, 3⟩]
            ⟨[], [⟨"X", 9⟩], [], [], [], [], []⟩).writes) "X" = none
    ∧ findInventory
        (applyWrites ⟨[], [⟨"X", 9⟩], [], [], [], [], []⟩
          (handleSubmit (some "u") [⟨"X", "Xp", 2, none, 3⟩]
            ⟨[], [⟨"X", 9⟩], [], [], [], [], []⟩).writes) "X"
      = findInventory ⟨[], [⟨"X", 9⟩], [], [], [], [], []⟩ "X" := by
  refine ⟨by decide, by decide, by decide, ?_, ?_⟩
  · exact (claim_C10_missing_product "u" [⟨"X", "Xp", 2, none, 3⟩]
      ⟨[], [⟨"X", 9⟩], [], [], [], [], []⟩ (by decide) ⟨"X", "Xp", 2, none, 3⟩
      (by decide) (by decide)).2.1
  · exact (claim_C10_missing_product "u" [⟨"X", "Xp", 2, none, 3⟩]
      ⟨[], [⟨"X", 9⟩], [], [], [], [], []⟩ (by decide) ⟨"X", "Xp", 2, none, 3⟩
      (by decide) (by decide)).2.2.1

/-- Claim C6, counterexample to the claim as stated: two finalization runs
whose caller-visible outcome (notification and navigation — the handler
returns no value) is identical, while the created orders and the written
stock values differ; so the caller cannot recover the created order or
the new stock values without re-fetching from the record store. -/
theorem claim_C6_counterexample :
    callerView (handleSubmit (some "u") [⟨"A", "Alpha", 10, none, 1⟩]
        ⟨[⟨"A", 5⟩], [], [], [], [], [], []⟩)
      = callerView (handleSubmit (some "u") [⟨"B", "Beta", 10, none, 1⟩]
        ⟨[⟨"B", 7⟩], [], [], [], [], [], []⟩)
    ∧ createdOrders (handleSubmit (some "u") [⟨"A", "Alpha", 10, none, 1⟩]
        ⟨[⟨"A", 5⟩], [], [], [], [], [], []⟩)
      ≠ createdOrders (handleSubmit (some "u") [⟨"B", "Beta", 10, none, 1⟩]
        ⟨[⟨"B", 7⟩], [], [], [], [], [], []⟩)
    ∧ stockValuesWritten (handleSubmit (some "u") [⟨"A", "Alpha", 10, none, 1⟩]
        ⟨[⟨"A", 5⟩], [], [], [], [], [], []⟩)
      ≠ stockValuesWritten (handleSubmit (some "u") [⟨"B", "Beta", 10, none, 1⟩]
        ⟨[⟨"B", 7⟩], [], [], [], [], [], []⟩) := by
  refine ⟨rfl, ?_, ?_⟩
  · intro h
    have h2 : ([⟨"u", [⟨"A", "Alpha", 10, none, 1⟩],
          getTotalPrice [⟨"A", "Alpha", 10, none, 1⟩], "pending"⟩] : List OrderRec)
        = [⟨"u", [⟨"B", "Beta", 10, none, 1⟩],
          getTotalPrice [⟨"B", "Beta", 10, none, 1⟩], "pending"⟩] := h
    injection h2 with h3 _
    injection h3 with _ h4 _ _
    exact absurd h4 (by decide)
  · intro h
    have h2 : ([("A", max 0 ((5 : ℤ) - 1))] : List (String × ℤ))
        = [("B", max 0 ((7 : ℤ) - 1))] := h
    injection h2 with h3 _
    injection h3 with h4 _
    exact absurd h4 (by decide)

/-- Claim C6 as amended: the finalizer surfaces to its caller only the
points earned (in the success notification) and a navigation to the
orders view; the created order is written to the record store (the insert
is in the trace) rather than returned. -/
theorem claim_C6_caller_view (uid : String) (items : List CartItem) (s : Store)
    (hne : items ≠ []) :
    callerView (handleSubmit (some uid) items s)
      = (some (Toast.orderPlaced ⌊getTotalPrice items⌋), some "/orders")
    ∧ Write.insertOrder ⟨uid, items, getTotalPrice items, "pending"⟩
        ∈ (handleSubmit (some uid) items s).writes := by
  rw [handleSubmit_some uid items s hne]
  exact ⟨rfl, List.mem_cons_self _ _⟩

/-- Witness for C6 as amended, at a concrete cart and store. -/
theorem claim_C6_witness :
    ([⟨"A", "Alpha", 10, none, 1⟩] : List CartItem) ≠ []
    ∧ callerView (handleSubmit (some "u") [⟨"A", "Alpha", 10, none, 1⟩]
        ⟨[⟨"A", 5⟩], [], [], [], [], [], []⟩)
      = (some (Toast.orderPlaced ⌊getTotalPrice [⟨"A", "Alpha", 10, none, 1⟩]⌋),
         some "/orders") :=
  ⟨by decide,
   (claim_C6_caller_view "u" [⟨"A", "Alpha", 10, none, 1⟩]
     ⟨[⟨"A", 5⟩], [], [], [], [], [], []⟩ (by decide)).1⟩

end EShop
